import Mathlib

/-
Verification of the ResolveURL resolver registry and multi-strategy resolution
pipeline (alexanderkasten/ResolveURL). The definitions below are shallow
embeddings of the Python source:

  - lib/resolveurl/standalone_resolveurl.py : relevant_resolvers, resolve,
    scrape_supported and the host cache;
  - complete_server.py : resolve_url_complete, resolve_with_manual_resolver_search,
    api_resolve_multiple;
  - functional_server.py : the demo registry, find_resolver and resolve_url.

Strings that undergo substring tests are embedded as List Char so that the
Python in operator on str becomes an executable containment test. External
collaborators (HTTP requests, urlparse, the plugin import machinery, and the
HostedMediaFile class whose module is not part of the sources) appear as
explicit oracle parameters or as definitions modelled from the spec, each
marked as such in its doc comment.
-/

namespace ResolveURL

/-- Lower-case a character string: embedding of Python str.lower on the ASCII
data handled by the registry. -/
def lowerL (s : List Char) : List Char := s.map Char.toLower

/-- isStartOf n h : n is an initial segment of h. -/
def isStartOf : List Char → List Char → Bool
  | [], _ => true
  | _ :: _, [] => false
  | a :: as, b :: bs => a == b && isStartOf as bs

/-- hasSub n h : n occurs as a contiguous substring of h. Embedding of the
Python expression n in h on strings. -/
def hasSub (n : List Char) : List Char → Bool
  | [] => n.isEmpty
  | h :: t => isStartOf n (h :: t) || hasSub n t

/-- isEndOf n h : n is a final segment of h. Embedding of str.endswith. -/
def isEndOf (n h : List Char) : Bool := isStartOf n.reverse h.reverse

theorem isStartOf_append {n h : List Char} (t : List Char)
    (hs : isStartOf n h = true) : isStartOf n (h ++ t) = true := by
  induction n generalizing h with
  | nil => simp [isStartOf]
  | cons a as ih =>
    cases h with
    | nil => simp [isStartOf] at hs
    | cons b bs =>
      simp only [isStartOf, Bool.and_eq_true] at hs ⊢
      exact ⟨hs.1, ih hs.2⟩

theorem hasSub_nil_left (h : List Char) : hasSub [] h = true := by
  cases h <;> simp [hasSub, isStartOf, List.isEmpty]

theorem hasSub_append_right {n b : List Char} (a : List Char)
    (hs : hasSub n b = true) : hasSub n (a ++ b) = true := by
  induction a with
  | nil => simpa using hs
  | cons x xs ih =>
    simp only [List.cons_append, hasSub, Bool.or_eq_true]
    exact Or.inr ih

theorem hasSub_append_left {n a : List Char} (b : List Char)
    (hs : hasSub n a = true) : hasSub n (a ++ b) = true := by
  induction a with
  | nil =>
    simp only [hasSub, List.isEmpty_iff] at hs
    subst hs
    simpa using hasSub_nil_left b
  | cons x xs ih =>
    simp only [hasSub, Bool.or_eq_true] at hs
    simp only [List.cons_append, hasSub, Bool.or_eq_true]
    cases hs with
    | inl h1 => exact Or.inl (isStartOf_append b h1)
    | inr h2 => exact Or.inr (ih h2)

theorem lowerL_append (a b : List Char) :
    lowerL (a ++ b) = lowerL a ++ lowerL b := by
  simp [lowerL]

/-! ## Resolver registry (standalone_resolveurl.py) -/

/-- One resolver plugin class as seen by the standalone registry: the class
attributes name and domains, the isUniversal / isPopup capability flags, the
externally controlled enabled flag, the class-level priority, and the mutable
priority attribute that relevant_resolvers writes onto the class. -/
structure Resolver where
  name : String
  domains : List (List Char)
  universal : Bool
  popup : Bool
  enabled : Bool
  classPriority : Int
  priorityAttr : Option Int := none
deriving DecidableEq

/-- The externally supplied policy state read by the registry: the
allow_universal and allow_popups settings and the per-resolver priority
override. -/
structure Settings where
  allowUniversal : Bool
  allowPopups : Bool
  prioOverride : String → Option Int

/-- Modelled from the spec: ResolveUrl._get_priority (lib/resolveurl/resolver.py
is not under src/). Per the external-interface contract, a per-resolver numeric
priority override is read from settings, falling back to the class priority. -/
def getPriority (st : Settings) (r : Resolver) : Int :=
  (st.prioOverride r.name).getD r.classPriority

/-- The wildcard entry, the one-character string in the Python literal. -/
def starL : List Char := ['*']

/-- The inclusion test of the loop in relevant_resolvers
(standalone_resolveurl.py lines 96-100): enabled/disabled gate, the universal
and popup policy gates (with None arguments defaulted from settings, lines
86-90), and the domain rule of line 99. The query domain arrives already
lower-cased (line 84, applied here via Option.map lowerL). -/
def relFilter (st : Settings) (domain : Option (List Char))
    (includeUniversal includePopups : Option Bool) (includeDisabled : Bool)
    (r : Resolver) : Bool :=
  (includeDisabled || r.enabled) &&
  ((includeUniversal.getD st.allowUniversal || !r.universal) &&
   (includePopups.getD st.allowPopups || !r.popup)) &&
  (match domain.map lowerL with
   | none => true
   | some dl =>
     (!dl.isEmpty && r.domains.any (fun rd => hasSub dl (lowerL rd))) ||
     r.domains.contains starL)

/-- Embedding of relevant_resolvers (standalone_resolveurl.py lines 79-110)
without its side effects: the filter over the registered classes, then the
stable priority sort when order_matters is set (Python list.sort with a key is
stable, as is List.mergeSort). The include_external plugin loading and the
priority attribute writes are modelled in relevantResolversSt below. -/
def relevantResolversCore (st : Settings) (registry : List Resolver)
    (domain : Option (List Char)) (includeUniversal includePopups : Option Bool)
    (includeDisabled orderMatters : Bool) : List Resolver :=
  if orderMatters then
    (registry.filter
        (relFilter st domain includeUniversal includePopups includeDisabled)).mergeSort
      (fun a b => decide (getPriority st a ≤ getPriority st b))
  else
    registry.filter (relFilter st domain includeUniversal includePopups includeDisabled)

/-- The domain rule exactly as the spec words it for a present domain d: the
lower-cased d contains one of the declared fragments, or the domains contain
the wildcard. Stated from the spec, to be compared with the code. -/
def specDomainRule (d : List Char) (r : Resolver) : Bool :=
  r.domains.any (fun rd => hasSub (lowerL rd) (lowerL d)) || r.domains.contains starL

/-- The domain rule the code implements (line 99): the lower-cased d is
nonempty and occurs as a substring of one of the declared fragments
(lower-cased), or the domains contain the wildcard. -/
def codeDomainRule (d : List Char) (r : Resolver) : Bool :=
  (!(lowerL d).isEmpty && r.domains.any (fun rd => hasSub (lowerL d) (lowerL rd))) ||
  r.domains.contains starL

/-- A concrete enabled, non-universal, non-popup resolver scoped to
example.com, as in the spec scenario A. -/
def exResolver : Resolver :=
  { name := "ExampleResolver", domains := ["example.com".toList],
    universal := false, popup := false, enabled := true, classPriority := 100 }

/-- Concrete settings with both policy gates open and no priority override. -/
def exSettings : Settings :=
  { allowUniversal := true, allowPopups := true, prioOverride := fun _ => none }

/-- C1 counterexample: for the present domain www.example.com the rule as the
spec states it holds of the example.com resolver (the lower-cased domain
contains the declared fragment), yet relevant_resolvers excludes it: the code
tests containment in the opposite direction. -/
theorem relevantResolvers_domainRule_spec_refuted :
    specDomainRule "www.example.com".toList exResolver = true ∧
    exResolver ∉
      relevantResolversCore exSettings [exResolver] (some "www.example.com".toList)
        (some true) (some true) true false := by
  decide

/-- C1 amended: for every registry query with a present domain d and every
resolver r of the registry that passes the enabled/universal/popup policy
gates, relevant_resolvers includes r exactly when the lower-cased d is nonempty
and is contained in one of r's declared domains fragments (lower-cased), or
r's domains contain the wildcard. -/
theorem relevantResolvers_domainRule_amended (st : Settings)
    (registry : List Resolver) (d : List Char) (iu ip : Option Bool)
    (incDis om : Bool) (r : Resolver)
    (hpol : ((incDis || r.enabled) &&
      ((iu.getD st.allowUniversal || !r.universal) &&
       (ip.getD st.allowPopups || !r.popup))) = true) :
    r ∈ relevantResolversCore st registry (some d) iu ip incDis om ↔
      r ∈ registry ∧ codeDomainRule d r = true := by
  unfold relevantResolversCore
  have hf : ∀ x : Resolver, relFilter st (some d) iu ip incDis x =
      (((incDis || x.enabled) &&
        ((iu.getD st.allowUniversal || !x.universal) &&
         (ip.getD st.allowPopups || !x.popup))) && codeDomainRule d x) := by
    intro x
    rfl
  cases om with
  | false =>
    simp only [Bool.false_eq_true, if_false, List.mem_filter, hf, hpol,
      Bool.true_and]
  | true =>
    simp only [if_true, List.mem_mergeSort, List.mem_filter, hf, hpol,
      Bool.true_and]

/-- Witness for the amended C1 at concrete inputs: the example.com resolver
passes the policy gates and its membership for the query domain example.com is
equivalent to the code domain rule. -/
theorem relevantResolvers_domainRule_amended_witness :
    (((false || exResolver.enabled) &&
      (((some true).getD exSettings.allowUniversal || !exResolver.universal) &&
       ((some true).getD exSettings.allowPopups || !exResolver.popup))) = true) ∧
    (exResolver ∈
        relevantResolversCore exSettings [exResolver] (some "example.com".toList)
          (some true) (some true) false false ↔
      exResolver ∈ [exResolver] ∧ codeDomainRule "example.com".toList exResolver = true) :=
  ⟨by decide,
   relevantResolvers_domainRule_amended exSettings [exResolver]
     "example.com".toList (some true) (some true) false false exResolver (by decide)⟩

/-- C4 counterexample: with the domain argument absent, even under the most
restrictive policy flags a domain-scoped resolver (not universal, no wildcard)
is returned: line 99 makes the domain condition vacuously true when domain is
None, so nothing is excluded for being domain-scoped. -/
theorem relevantResolvers_noDomain_spec_refuted :
    exResolver.universal = false ∧
    exResolver.domains.contains starL = false ∧
    exResolver ∈
      relevantResolversCore exSettings [exResolver] none (some false) (some false)
        false false := by
  decide

/-- C4 amended: with the domain argument absent, the domain rule is skipped
entirely: for every policy-flag combination a resolver is returned exactly when
it passes the enabled/universal/popup policy gates, whether or not it is
domain-scoped. -/
theorem relevantResolvers_noDomain_amended (st : Settings)
    (registry : List Resolver) (iu ip : Option Bool) (incDis om : Bool)
    (r : Resolver) :
    r ∈ relevantResolversCore st registry none iu ip incDis om ↔
      r ∈ registry ∧
        (((incDis || r.enabled) &&
          ((iu.getD st.allowUniversal || !r.universal) &&
           (ip.getD st.allowPopups || !r.popup))) = true) := by
  unfold relevantResolversCore
  have hf : ∀ x : Resolver, relFilter st none iu ip incDis x =
      ((incDis || x.enabled) &&
        ((iu.getD st.allowUniversal || !x.universal) &&
         (ip.getD st.allowPopups || !x.popup))) := by
    intro x
    simp [relFilter]
  cases om with
  | false =>
    simp only [Bool.false_eq_true, if_false, List.mem_filter, hf]
  | true =>
    simp only [if_true, List.mem_mergeSort, List.mem_filter, hf]

/-! ## relevant_resolvers with its observable effects (C9) -/

/-- The module-level state touched by relevant_resolvers: the registered plugin
dirs (PLUGIN_DIRS), the import search path (sys.path), and the registered
resolver classes with their mutable priority attribute. -/
structure ModState where
  pluginDirs : List String
  sysPath : List String
  registry : List Resolver
deriving DecidableEq

/-- Embedding of load_external_plugins (standalone_resolveurl.py lines 65-77):
each plugin dir is pushed onto the front of sys.path and the plugin modules
found in it are imported, which registers the resolver classes they define.
The file-system and import machinery is the dirPlugins oracle. -/
def loadExternalPlugins (dirPlugins : String → List Resolver) (st : ModState) :
    ModState :=
  st.pluginDirs.foldl
    (fun s d =>
      { s with sysPath := d :: s.sysPath, registry := s.registry ++ dirPlugins d })
    st

/-- Full embedding of relevant_resolvers (standalone_resolveurl.py lines
79-110) including its observable effects: the optional external plugin load
(lines 80-81) and the write of the computed priority into the priority
attribute of every relevant resolver class (lines 106-107; the returned list
aliases the registry entries, so both carry the write). Returns the post-call
module state together with the returned list. -/
def relevantResolversSt (dirPlugins : String → List Resolver) (st : Settings)
    (domain : Option (List Char)) (includeUniversal includePopups : Option Bool)
    (includeExternal includeDisabled orderMatters : Bool) (ms : ModState) :
    ModState × List Resolver :=
  let ms1 := if includeExternal then loadExternalPlugins dirPlugins ms else ms
  let rel := relevantResolversCore st ms1.registry domain includeUniversal
    includePopups includeDisabled orderMatters
  let upd : Resolver → Resolver :=
    fun r => { r with priorityAttr := some (getPriority st r) }
  ({ ms1 with
      registry := ms1.registry.map
        (fun r =>
          if relFilter st domain includeUniversal includePopups includeDisabled r
          then upd r else r) },
   rel.map upd)

/-- A concrete starting state for the purity refutation: one plugin dir, one
path entry, the example resolver registered with no priority attribute set. -/
def exModState : ModState :=
  { pluginDirs := ["/plugins"], sysPath := ["/base"], registry := [exResolver] }

/-- C9 counterexample: relevant_resolvers is not side-effect free. With
include_external set it pushes the plugin dir onto sys.path, and even with it
unset a call writes the priority attribute of the matching resolver class, so
the post-call module state differs from the pre-call state in both cases. -/
theorem relevantResolversSt_not_pure :
    (relevantResolversSt (fun _ => []) exSettings (some "example.com".toList)
        (some true) (some true) true false false exModState).1.sysPath =
      ["/plugins", "/base"] ∧
    (relevantResolversSt (fun _ => []) exSettings (some "example.com".toList)
        (some true) (some true) true false false exModState).1 ≠ exModState ∧
    (relevantResolversSt (fun _ => []) exSettings (some "example.com".toList)
        (some true) (some true) false false false exModState).1.registry =
      [{ exResolver with priorityAttr := some 100 }] ∧
    (relevantResolversSt (fun _ => []) exSettings (some "example.com".toList)
        (some true) (some true) false false false exModState).1 ≠ exModState := by
  decide

/-- C9 amended: with include_external unset, the observable state change of
relevant_resolvers is confined to the priority attribute of the resolvers that
pass its filter: the plugin dirs and sys.path are unchanged and every other
registry entry is returned untouched. -/
theorem relevantResolversSt_state_change (dirPlugins : String → List Resolver)
    (st : Settings) (domain : Option (List Char)) (iu ip : Option Bool)
    (incDis om : Bool) (ms : ModState) :
    (relevantResolversSt dirPlugins st domain iu ip false incDis om ms).1.pluginDirs =
      ms.pluginDirs ∧
    (relevantResolversSt dirPlugins st domain iu ip false incDis om ms).1.sysPath =
      ms.sysPath ∧
    (relevantResolversSt dirPlugins st domain iu ip false incDis om ms).1.registry =
      ms.registry.map
        (fun r =>
          if relFilter st domain iu ip incDis r
          then { r with priorityAttr := some (getPriority st r) } else r) := by
  refine ⟨rfl, rfl, rfl⟩

/-! ## The three-tier resolution chain (complete_server.py, C2 and C8) -/

/-- Python truthiness of an optional string result. -/
def pyTruthyL : Option (List Char) → Bool
  | none => false
  | some s => !s.isEmpty

/-- The video extension list of resolve_url_complete line 187. -/
def videoExts : List (List Char) :=
  [".mp4".toList, ".avi".toList, ".mkv".toList, ".mov".toList, ".webm".toList]

/-- Tier 3 of resolve_url_complete (complete_server.py lines 186-197): when the
url is truthy and contains one of the known video extensions (case folded), a
HEAD request is issued; head is its outcome — an exception, or the status code
together with the content-type header (the empty string when absent). The url
itself is returned when the status is 200 and the lower-cased content type
contains video; any exception is swallowed. -/
def directProbe (head : Except Unit (Nat × List Char)) (url : List Char) :
    Option (List Char) :=
  if !url.isEmpty && videoExts.any (fun ext => hasSub ext (lowerL url)) then
    match head with
    | Except.ok (status, ctype) =>
      if status == 200 && hasSub "video".toList (lowerL ctype) then some url
      else none
    | Except.error _ => none
  else none

/-- Embedding of resolve_url_complete (complete_server.py lines 174-198). The
two inner tiers are abstracted by their results on the given url: t1 is what
resolve_url_with_resolveurl returned (None, or its truthy result) and t2
likewise for resolve_with_manual_resolver_search; head is the HEAD-request
oracle of tier 3. The second component records the tiers whose code ran. -/
def resolveUrlCompleteTr (t1 t2 : Option (List Char))
    (head : Except Unit (Nat × List Char)) (url : List Char) :
    Option (List Char) × List Nat :=
  if pyTruthyL t1 then (t1, [1])
  else if pyTruthyL t2 then (t2, [1, 2])
  else (directProbe head url, [1, 2, 3])

/-- C2: the pipeline returns the first non-empty result of tier 1, tier 2,
tier 3 in that order; when tier 1 yields a non-empty result tiers 2 and 3 are
never invoked; and an unresolved outcome (None) is returned exactly when all
three tiers produced nothing. -/
theorem resolveUrlComplete_tier_chain (t1 t2 : Option (List Char))
    (head : Except Unit (Nat × List Char)) (url : List Char) :
    (pyTruthyL t1 = true → resolveUrlCompleteTr t1 t2 head url = (t1, [1])) ∧
    (pyTruthyL t1 = false → pyTruthyL t2 = true →
      resolveUrlCompleteTr t1 t2 head url = (t2, [1, 2])) ∧
    (pyTruthyL t1 = false → pyTruthyL t2 = false →
      resolveUrlCompleteTr t1 t2 head url = (directProbe head url, [1, 2, 3])) ∧
    ((resolveUrlCompleteTr t1 t2 head url).1 = none ↔
      pyTruthyL t1 = false ∧ pyTruthyL t2 = false ∧ directProbe head url = none) := by
  unfold resolveUrlCompleteTr
  refine ⟨fun h1 => by simp [h1], fun h1 h2 => by simp [h1, h2],
    fun h1 h2 => by simp [h1, h2], ?_⟩
  cases h1 : pyTruthyL t1 with
  | true =>
    have hnn : t1 ≠ none := by
      cases t1 <;> simp [pyTruthyL] at h1 ⊢
    simp [h1, hnn]
  | false =>
    cases h2 : pyTruthyL t2 with
    | true =>
      have hnn : t2 ≠ none := by
        cases t2 <;> simp [pyTruthyL] at h2 ⊢
      simp [h1, h2, hnn]
    | false =>
      simp [h1, h2]

/-- Witness for C2 at concrete inputs: a truthy tier-1 result short-circuits
with trace [1], and a truthy tier-2 result behind an empty tier 1 returns with
trace [1, 2]. -/
theorem resolveUrlComplete_tier_chain_witness :
    resolveUrlCompleteTr (some "m".toList) none (Except.error ()) "u".toList =
      (some "m".toList, [1]) ∧
    resolveUrlCompleteTr none (some "n".toList) (Except.error ()) "u".toList =
      (some "n".toList, [1, 2]) :=
  ⟨(resolveUrlComplete_tier_chain (some "m".toList) none (Except.error ())
      "u".toList).1 (by decide),
   (resolveUrlComplete_tier_chain none (some "n".toList) (Except.error ())
      "u".toList).2.1 (by decide) (by decide)⟩

/-- Rendering of a structured URL, to speak about its path and query parts. -/
def renderUrl (scheme host path query : List Char) : List Char :=
  scheme ++ "://".toList ++ host ++ path ++ "?".toList ++ query

/-- C8: for every URL whose path or query string contains a known video file
extension, when tiers 1 and 2 produced nothing and the HEAD probe answers 200
with a content type containing video, the pipeline returns the URL itself. -/
theorem directProbe_returns_url (scheme host path query ext : List Char)
    (t1 t2 : Option (List Char)) (status : Nat) (ctype : List Char)
    (hext : ext ∈ videoExts)
    (hin : hasSub ext (lowerL path) = true ∨ hasSub ext (lowerL query) = true)
    (h1 : pyTruthyL t1 = false) (h2 : pyTruthyL t2 = false)
    (hst : status = 200)
    (hct : hasSub "video".toList (lowerL ctype) = true) :
    (resolveUrlCompleteTr t1 t2 (Except.ok (status, ctype))
        (renderUrl scheme host path query)).1 =
      some (renderUrl scheme host path query) := by
  have hne : (renderUrl scheme host path query).isEmpty = false := by
    unfold renderUrl
    cases scheme <;> rfl
  have hcontains :
      hasSub ext (lowerL (renderUrl scheme host path query)) = true := by
    unfold renderUrl
    rw [lowerL_append]
    cases hin with
    | inl hp =>
      refine hasSub_append_left _ ?_
      rw [lowerL_append]
      refine hasSub_append_left _ ?_
      rw [lowerL_append]
      exact hasSub_append_right _ hp
    | inr hq =>
      exact hasSub_append_right _ hq
  have hany : videoExts.any
      (fun e => hasSub e (lowerL (renderUrl scheme host path query))) = true :=
    List.any_eq_true.mpr ⟨ext, hext, hcontains⟩
  subst hst
  simp [resolveUrlCompleteTr, h1, h2, directProbe, hne, hany]
  exact hct

/-- Witness for C8 at the spec scenario C: site.test/video.mp4 with empty
tiers 1 and 2 and a 200 video/mp4 HEAD answer resolves to itself. -/
theorem directProbe_returns_url_witness :
    (resolveUrlCompleteTr none none (Except.ok (200, "video/mp4".toList))
        (renderUrl "https".toList "site.test".toList "/video.mp4".toList [])).1 =
      some (renderUrl "https".toList "site.test".toList "/video.mp4".toList []) :=
  directProbe_returns_url "https".toList "site.test".toList "/video.mp4".toList
    [] ".mp4".toList none none 200 "video/mp4".toList (by decide)
    (Or.inl (by decide)) (by decide) (by decide) rfl (by decide)

/-! ## The manual-search candidate loop (complete_server.py, C3) -/

/-- Python truthiness of an optional String. -/
def pyTruthyS : Option String → Bool
  | none => false
  | some s => !s.isEmpty

/-- One candidate of the loop in resolve_with_manual_resolver_search, for the
url under resolution: the _is_enabled answer, and the outcomes of
valid_url(url, domain), get_host_and_id(url) and get_media_url(host, media_id),
each of which may raise. -/
structure Candidate where
  name : String
  enabled : Bool
  validUrl : Except Unit Bool
  hostAndId : Except Unit (Option String × Option String)
  mediaUrl : Except Unit (Option String)

/-- The body of one loop iteration of resolve_with_manual_resolver_search
(complete_server.py lines 142-166) after the enabled check: a false valid_url,
a falsy host or media_id, a falsy media result, or an exception anywhere (the
except at line 164) all yield no result for this candidate. -/
def tryCandidate (c : Candidate) : Option String :=
  match (do
      let v ← c.validUrl
      if v then do
        let hm ← c.hostAndId
        if pyTruthyS hm.1 && pyTruthyS hm.2 then c.mediaUrl
        else pure none
      else pure none : Except Unit (Option String)) with
  | Except.ok r => r
  | Except.error _ => none

/-- The candidate loop of resolve_with_manual_resolver_search: disabled
candidates are skipped (line 145), the first truthy media result is returned
(line 160), and otherwise the loop continues; None is returned after the list
is exhausted (line 168). The second component lists the candidates whose body
was entered past the enabled check. -/
def manualLoopTr : List Candidate → Option String × List String
  | [] => (none, [])
  | c :: rest =>
    if !c.enabled then manualLoopTr rest
    else
      if pyTruthyS (tryCandidate c) then (tryCandidate c, [c.name])
      else ((manualLoopTr rest).1, c.name :: (manualLoopTr rest).2)

/-- C3 amended (the complete-server tier): when an enabled candidate fails — by
exception or a falsy result — the loop result is that of the remaining
candidates, and whenever the tier comes back empty every enabled candidate of
the tier was tried. -/
theorem manualSearch_candidate_fallback (c : Candidate) (rest : List Candidate)
    (hen : c.enabled = true) (hfail : pyTruthyS (tryCandidate c) = false) :
    ((manualLoopTr (c :: rest)).1 = (manualLoopTr rest).1 ∧
     (manualLoopTr (c :: rest)).2 = c.name :: (manualLoopTr rest).2) ∧
    ∀ cs : List Candidate, (manualLoopTr cs).1 = none →
      (manualLoopTr cs).2 = (cs.filter (fun x => x.enabled)).map
        (fun x => x.name) := by
  constructor
  · simp [manualLoopTr, hen, hfail]
  · intro cs
    induction cs with
    | nil => intro _; rfl
    | cons d ds ih =>
      intro hnone
      cases hd : d.enabled with
      | false =>
        simp only [manualLoopTr, hd] at hnone ⊢
        simp only [List.filter, hd]
        exact ih hnone
      | true =>
        cases ht : pyTruthyS (tryCandidate d) with
        | true =>
          exfalso
          simp only [manualLoopTr, hd, ht, Bool.not_true, Bool.false_eq_true,
            if_false, if_true] at hnone
          cases htc : tryCandidate d with
          | none => rw [htc] at ht; simp [pyTruthyS] at ht
          | some s => rw [htc] at hnone; simp at hnone
        | false =>
          simp only [manualLoopTr, hd, ht, Bool.not_true, Bool.false_eq_true,
            if_false] at hnone ⊢
          simp only [List.filter, hd, List.map]
          exact congrArg _ (ih hnone)

/-- A failing enabled candidate: everything works until get_media_url, which
returns None. -/
def candA : Candidate :=
  ⟨"A", true, Except.ok true, Except.ok (some "h", some "m"), Except.ok none⟩

/-- A succeeding enabled candidate. -/
def candB : Candidate :=
  ⟨"B", true, Except.ok true, Except.ok (some "h", some "m"),
    Except.ok (some "http://media.test/b")⟩

/-- An enabled candidate whose extraction yields a falsy pair, so it fails. -/
def candC : Candidate :=
  ⟨"C", true, Except.ok true, Except.ok (none, none), Except.ok (some "x")⟩

/-- Witness for the amended C3 at concrete candidates: after A fails the loop
returns B's result, and an exhausted singleton tier tried its one enabled
candidate. -/
theorem manualSearch_candidate_fallback_witness :
    ((manualLoopTr [candA, candB]).1 = (manualLoopTr [candB]).1 ∧
     (manualLoopTr [candA, candB]).2 = candA.name :: (manualLoopTr [candB]).2) ∧
    (manualLoopTr [candC]).2 =
      ([candC].filter (fun x => x.enabled)).map (fun x => x.name) :=
  ⟨(manualSearch_candidate_fallback candA [candB] (by decide) (by decide)).1,
   (manualSearch_candidate_fallback candA [] (by decide) (by decide)).2
     [candC] (by decide)⟩

/-! ## The functional-server pipeline (functional_server.py, C3 counterexample) -/

/-- A word character of the character class in the YouTube pattern. -/
def wordChar (c : Char) : Bool := c.isAlphanum || c == '_' || c == '-'

/-- p occurs at the head of u followed by at least one word character. -/
def leadThenWord (p u : List Char) : Bool :=
  isStartOf p u &&
  (match u.drop p.length with
   | c :: _ => wordChar c
   | [] => false)

/-- First literal alternative of the YouTube pattern (every metacharacter in it
is escaped in the source, so it matches literally). -/
def ytLit1 : List Char := "youtube.com/watch?v=".toList

/-- Second literal alternative of the YouTube pattern. -/
def ytLit2 : List Char := "youtu.be/".toList

/-- Embedding of re.search with re.I for the YouTube pattern of
functional_server.py line 192: some position of the lower-cased url starts
with one of the two literal alternatives followed by at least one word
character. -/
def ytSearch : List Char → Bool
  | [] => false
  | c :: rest => leadThenWord ytLit1 (c :: rest) || leadThenWord ytLit2 (c :: rest) ||
      ytSearch rest

/-- YouTubeResolver via BaseResolver.valid_url (functional_server.py lines
55-61): a falsy url fails, otherwise the pattern is searched case
insensitively. -/
def ytValid (url : List Char) : Bool := !url.isEmpty && ytSearch (lowerL url)

/-- The literal alternatives of GenericEmbedResolver.valid_url (lines 145-151);
the escaped question mark matches literally. -/
def geLits : List (List Char) :=
  ["/embed/".toList, "/watch?v=".toList, "/video/".toList, "/stream/".toList,
   "/play/".toList]

/-- GenericEmbedResolver.valid_url (functional_server.py lines 139-153). -/
def geValid (url : List Char) : Bool :=
  !url.isEmpty && geLits.any (fun p => hasSub p (lowerL url))

/-- The extension list of DirectLinkResolver.valid_url (line 103). -/
def dlExts : List (List Char) :=
  [".mp4".toList, ".avi".toList, ".mkv".toList, ".mov".toList, ".wmv".toList,
   ".flv".toList, ".webm".toList, ".m4v".toList]

/-- DirectLinkResolver.valid_url (functional_server.py lines 97-114): the
lower-cased url ends with a video extension, or contains one anywhere. -/
def dlValid (url : List Char) : Bool :=
  !url.isEmpty &&
  (dlExts.any (fun e => isEndOf e (lowerL url)) ||
   dlExts.any (fun e => hasSub e (lowerL url)))

/-- One resolver of the functional server: name, class priority, its valid_url
test, and the outcome of its resolve method on a url (page fetches and HEAD
checks appear through the oracle outcomes baked in by functionalRegistry). -/
structure FRes where
  name : String
  priority : Int
  valid : List Char → Bool
  resolveF : List Char → Except Unit (Option (List Char))

/-- YouTubeResolver: BaseResolver.resolve unpacks get_host_and_id into two
names, but the pattern has a single capture group, so a successful search
returns a one-element tuple and the unpacking raises (modelled as the
exception); with no match, (None, None) is returned, host is falsy and resolve
returns None. Either way get_media_url (line 199) would return None. -/
def ytRes : FRes :=
  ⟨"YouTube", 10, ytValid,
   fun url => if ytSearch (lowerL url) then Except.error () else Except.ok none⟩

/-- GenericEmbedResolver with the outcome of its page-fetch-and-scan resolve
method supplied as an oracle. -/
def geRes (net : Except Unit (Option (List Char))) : FRes :=
  ⟨"GenericEmbed", 150, geValid, fun _ => net⟩

/-- DirectLinkResolver with the outcome of its HEAD-check resolve method
supplied as an oracle. -/
def dlRes (head : Except Unit (Option (List Char))) : FRes :=
  ⟨"DirectLink", 200, dlValid, fun _ => head⟩

/-- The RESOLVERS registry of functional_server.py lines 202-206, in source
order. -/
def functionalRegistry (net head : Except Unit (Option (List Char))) :
    List FRes :=
  [dlRes head, geRes net, ytRes]

/-- find_resolver (functional_server.py lines 208-219): sort by priority
(Python sorted is stable, as is mergeSort) and return the first resolver whose
valid_url accepts the url. The hostname it also computes is ignored by all
three valid_url implementations. -/
def findResolver (rs : List FRes) (url : List Char) : Option FRes :=
  (rs.mergeSort (fun a b => decide (a.priority ≤ b.priority))).find?
    (fun r => r.valid url)

/-- resolve_url (functional_server.py lines 221-233): only the single resolver
chosen by find_resolver is tried; an exception is logged and swallowed, a falsy
result is dropped, and in every failing case None is returned without trying
any other resolver. The second component lists the resolvers whose resolve
method was invoked. -/
def functionalResolveUrlTr (rs : List FRes) (url : List Char) :
    Option (List Char) × List String :=
  match findResolver rs url with
  | none => (none, [])
  | some r =>
    (match r.resolveF url with
     | Except.ok res => if pyTruthyL res then res else none
     | Except.error _ => none,
     [r.name])

/-- The concrete YouTube watch url of the refutation. -/
def ytUrl : List Char := "https://youtube.com/watch?v=dQw4w9WgXcQ".toList

/-- C3 counterexample: in the functional server, the failure of the first
candidate is not recovered by moving on. For the YouTube watch url the chosen
YouTube resolver fails (its resolve raises on the one-group pattern), the
pipeline returns None having invoked only that resolver, and the eligible
GenericEmbed resolver — whose resolve outcome here would even have been a
truthy media url — is never tried, refuting the claim that the tier is
exhausted only after every eligible candidate has been tried. -/
theorem functionalServer_first_valid_only :
    functionalResolveUrlTr
        (functionalRegistry (Except.ok (some "https://cdn.test/clip.mp4".toList))
          (Except.ok (some "x".toList))) ytUrl = (none, ["YouTube"]) ∧
    geValid ytUrl = true ∧
    "GenericEmbed" ∉ ["YouTube"] := by
  have hsort :
      (functionalRegistry (Except.ok (some "https://cdn.test/clip.mp4".toList))
          (Except.ok (some "x".toList))).mergeSort
        (fun a b => decide (a.priority ≤ b.priority)) =
      [ytRes, geRes (Except.ok (some "https://cdn.test/clip.mp4".toList)),
       dlRes (Except.ok (some "x".toList))] := by
    simp [functionalRegistry, ytRes, geRes, dlRes, List.mergeSort]
  have hfind :
      findResolver
        (functionalRegistry (Except.ok (some "https://cdn.test/clip.mp4".toList))
          (Except.ok (some "x".toList))) ytUrl = some ytRes := by
    unfold findResolver
    rw [hsort, List.find?_cons_of_pos _ (by decide)]
  refine ⟨?_, by decide, by decide⟩
  unfold functionalResolveUrlTr
  rw [hfind]
  decide

/-! ## Batch resolution (complete_server.py api_resolve_multiple, C5) -/

/-- The shape of the urls field of the request body: absent, present but not a
list, or a list of url strings. -/
inductive UrlsPayload where
  | missing : UrlsPayload
  | notList : UrlsPayload
  | urls : List String → UrlsPayload

/-- One entry of the results array (complete_server.py lines 581-592):
resolvedUrl is some value when the success branch built the entry (the inner
Option is the null written for a falsy result) and none when the field is
absent on the error branch. -/
structure BatchEntry where
  originalUrl : String
  success : Bool
  resolvedUrl : Option (Option String)
  error : Option String
deriving DecidableEq

/-- The endpoint response: a 400 caller-input error, or the results array with
the total and successful counts. -/
inductive BatchResponse where
  | badRequest : String → BatchResponse
  | ok : List BatchEntry → Nat → Nat → BatchResponse
deriving DecidableEq

/-- The per-url body of the loop (lines 577-592): resolveC is the outcome of
resolve_url_complete on the url — a value, or a raised exception caught by the
per-url except. -/
def mkBatchEntry (resolveC : String → Except String (Option String))
    (url : String) : BatchEntry :=
  match resolveC url with
  | Except.ok r => ⟨url, pyTruthyS r, some (if pyTruthyS r then r else none), none⟩
  | Except.error e => ⟨url, false, none, some e⟩

/-- Embedding of api_resolve_multiple (complete_server.py lines 560-598): the
missing and non-list payloads are rejected with 400 before the loop runs; a
list is mapped to one entry per url with the successful count. The second
component lists the urls passed to resolve_url_complete. -/
def apiResolveMultipleTr (resolveC : String → Except String (Option String)) :
    UrlsPayload → BatchResponse × List String
  | UrlsPayload.missing => (BatchResponse.badRequest "Missing required field: urls", [])
  | UrlsPayload.notList => (BatchResponse.badRequest "urls must be a list", [])
  | UrlsPayload.urls us =>
    (BatchResponse.ok (us.map (mkBatchEntry resolveC)) us.length
      ((us.map (mkBatchEntry resolveC)).countP (fun e => e.success)), us)

/-- C5: a batch request with a url list gets exactly one result entry per input
url, and the entry at each position is a function of that url and its own
resolution outcome alone, so no url's failure affects any other entry; a
non-list payload is rejected as a caller-input error with no resolution
attempted. -/
theorem apiResolveMultiple_per_url
    (resolveC : String → Except String (Option String)) :
    (∀ us : List String, ∃ results total succ,
      (apiResolveMultipleTr resolveC (UrlsPayload.urls us)).1 =
        BatchResponse.ok results total succ ∧
      results.length = us.length ∧
      ∀ i : Nat, results[i]? = (us[i]?).map (mkBatchEntry resolveC)) ∧
    apiResolveMultipleTr resolveC UrlsPayload.notList =
      (BatchResponse.badRequest "urls must be a list", []) := by
  constructor
  · intro us
    refine ⟨_, _, _, rfl, by simp, fun i => ?_⟩
    simp [List.getElem?_map]
  · rfl

/-! ## scrape_supported and the host cache (standalone_resolveurl.py, C6 and C7) -/

/-- The host cache, a Python dict: association list with insertion at the tail
and in-place update; keys are the hostname (None is a legal key, written by
the full-validation path when the url has no parsable hostname). -/
abbrev Cache := List (Option String × Bool)

/-- Dict lookup. -/
def dictGet : Cache → Option String → Option Bool
  | [], _ => none
  | (k, v) :: rest, key => if k == key then some v else dictGet rest key

/-- Dict store: replaces the value of an existing key, else appends. -/
def dictSet : Cache → Option String → Bool → Cache
  | [], key, v => [(key, v)]
  | (k, w) :: rest, key, v =>
    if k == key then (key, v) :: rest else (k, w) :: dictSet rest key v

/-- Embedding of the loop of scrape_supported (standalone_resolveurl.py lines
171-192) over the stream urls produced by re.finditer; hostOf embeds
urlparse(u).hostname. validHost embeds HostedMediaFile(host=h,
media_id=dummy).valid_url() and validFull embeds
HostedMediaFile(url=u).valid_url(). Both are modelled from the spec, since
lib/resolveurl/hmf.py is not under src/: host validation is a pure
capability/pattern match on the host, while full validation also checks the
url shape, so the two are independent oracles that may disagree about a host.
Returns the collected links and the final host cache. Note line 189: the write
host_cache[host] = is_valid runs on the full-validation path too. -/
def scrapeLoop (validHost validFull : String → Bool)
    (hostOf : String → Option String) (hostOnly : Bool) :
    List String → Cache → List String × Cache
  | [], cache => ([], cache)
  | u :: rest, cache =>
    if hostOnly then
      match hostOf u with
      | none => scrapeLoop validHost validFull hostOf hostOnly rest cache
      | some h =>
        match dictGet cache (some h) with
        | some b =>
          ((if b then
              u :: (scrapeLoop validHost validFull hostOf hostOnly rest cache).1
            else (scrapeLoop validHost validFull hostOf hostOnly rest cache).1),
           (scrapeLoop validHost validFull hostOf hostOnly rest cache).2)
        | none =>
          ((if validHost h then
              u :: (scrapeLoop validHost validFull hostOf hostOnly rest
                  (dictSet cache (some h) (validHost h))).1
            else (scrapeLoop validHost validFull hostOf hostOnly rest
                (dictSet cache (some h) (validHost h))).1),
           (scrapeLoop validHost validFull hostOf hostOnly rest
              (dictSet cache (some h) (validHost h))).2)
    else
      ((if validFull u then
          u :: (scrapeLoop validHost validFull hostOf hostOnly rest
              (dictSet cache (hostOf u) (validFull u))).1
        else (scrapeLoop validHost validFull hostOf hostOnly rest
            (dictSet cache (hostOf u) (validFull u))).1),
       (scrapeLoop validHost validFull hostOf hostOnly rest
          (dictSet cache (hostOf u) (validFull u))).2)

/-- scrape_supported on an already-extracted match list, threading the module
host cache. -/
def scrapeSupported (validHost validFull : String → Bool)
    (hostOf : String → Option String) (streams : List String)
    (hostOnly : Bool) (cache : Cache) : List String × Cache :=
  scrapeLoop validHost validFull hostOf hostOnly streams cache

/-- Storing one key leaves every other key unchanged. -/
theorem dictGet_dictSet_ne (c : Cache) (k key : Option String) (v : Bool)
    (hne : k ≠ key) : dictGet (dictSet c k v) key = dictGet c key := by
  induction c with
  | nil => simp [dictSet, dictGet, hne]
  | cons p rest ih =>
    by_cases hk : p.1 = k
    · simp [dictSet, dictGet, hk, hne]
    · simp only [dictSet]
      rw [if_neg (by simpa using hk)]
      by_cases hkey : p.1 = key
      · simp [dictGet, hkey]
      · simp only [dictGet]
        rw [if_neg (by simpa using hkey), if_neg (by simpa using hkey)]
        exact ih

/-- C6 amended: on the host-only path the cache is a true memo — an entry that
is already present is never overwritten, so host-only scrapes always agree
with the existing judgment for a host. (The full-validation path can overwrite
it; see the counterexample.) -/
theorem hostCache_hostOnly_stable (validHost validFull : String → Bool)
    (hostOf : String → Option String) (streams : List String) (cache : Cache)
    (h : String) (b : Bool) (hmem : dictGet cache (some h) = some b) :
    dictGet (scrapeSupported validHost validFull hostOf streams true cache).2
      (some h) = some b := by
  induction streams generalizing cache with
  | nil => simpa [scrapeSupported, scrapeLoop] using hmem
  | cons u rest ih =>
    simp only [scrapeSupported, scrapeLoop] at ih ⊢
    cases hu : hostOf u with
    | none => exact ih cache hmem
    | some h2 =>
      cases hc : dictGet cache (some h2) with
      | some b2 =>
        simp only [hc]
        exact ih cache hmem
      | none =>
        have hne : (some h2 : Option String) ≠ some h := by
          intro he
          rw [he, hmem] at hc
          cases hc
        have hmem2 :
            dictGet (dictSet cache (some h2) (validHost h2)) (some h) = some b := by
          rw [dictGet_dictSet_ne cache (some h2) (some h) (validHost h2) hne]
          exact hmem
        simp only [hc]
        exact ih (dictSet cache (some h2) (validHost h2)) hmem2

/-- Witness for the amended C6: with h.test already cached as valid, a
host-only scrape of another link leaves the judgment for h.test in place. -/
theorem hostCache_hostOnly_stable_witness :
    dictGet [((some "h.test" : Option String), true)] (some "h.test") = some true ∧
    dictGet (scrapeSupported (fun _ => false) (fun _ => false)
        (fun _ => some "other.test") ["http://other.test/a"] true
        [((some "h.test" : Option String), true)]).2 (some "h.test") = some true :=
  ⟨by decide,
   hostCache_hostOnly_stable (fun _ => false) (fun _ => false)
     (fun _ => some "other.test") ["http://other.test/a"]
     [((some "h.test" : Option String), true)] "h.test" true (by decide)⟩

/-- The oracles of the cache-overwrite scenario: the host h.test validates as
a host, but full validation of the concrete scraped url fails (per the spec,
full validation also checks the url shape), and both links parse to h.test. -/
def cHost : String → Bool := fun _ => true

/-- Full-url validation oracle of the scenario: fails for the scraped url. -/
def cFull : String → Bool := fun _ => false

/-- Hostname parse oracle of the scenario. -/
def cHostOf : String → Option String := fun _ => some "h.test"

/-- Cache after a first host-only scrape of a link on h.test. -/
def cCache1 : Cache :=
  (scrapeSupported cHost cFull cHostOf ["http://h.test/a"] true []).2

/-- Cache after a subsequent full-validation scrape of a link on the same
host. -/
def cCache2 : Cache :=
  (scrapeSupported cHost cFull cHostOf ["http://h.test/b"] false cCache1).2

/-- C6 counterexample: the cache entry for h.test is written as true by the
first host-only lookup, then overwritten to false by a full-validation scrape
of a url on the same host, so a later host-validity lookup for the same host
returns the opposite boolean within one process: the same host-only scrape of
the same link yields the link before and nothing after. -/
theorem hostCache_overwritten :
    dictGet cCache1 (some "h.test") = some true ∧
    dictGet cCache2 (some "h.test") = some false ∧
    (scrapeSupported cHost cFull cHostOf ["http://h.test/a"] true cCache1).1 =
      ["http://h.test/a"] ∧
    (scrapeSupported cHost cFull cHostOf ["http://h.test/a"] true cCache2).1 =
      [] := by
  decide

/-- C7 counterexample: a hostOnly-false scrape does not leave the host cache
unchanged — line 189 writes the full-validation judgment under the link's
hostname, so the cache gains an entry. -/
theorem scrape_fullPath_cache_changed :
    (scrapeSupported (fun _ => false) (fun _ => true)
        (fun _ => some "a.example") ["http://a.example/x.mp4"] false []).2 =
      [((some "a.example" : Option String), true)] ∧
    (scrapeSupported (fun _ => false) (fun _ => true)
        (fun _ => some "a.example") ["http://a.example/x.mp4"] false []).2 ≠
      ([] : Cache) := by
  decide

/-- C7 amended: the hostOnly-false path writes the cache for every extracted
link: the final cache is the initial one updated, link by link in order, with
the full-validation judgment of the link stored under its parsed hostname. -/
theorem scrape_fullPath_writes_cache (validHost validFull : String → Bool)
    (hostOf : String → Option String) (streams : List String) (cache : Cache) :
    (scrapeSupported validHost validFull hostOf streams false cache).2 =
      streams.foldl (fun c u => dictSet c (hostOf u) (validFull u)) cache := by
  induction streams generalizing cache with
  | nil => rfl
  | cons u rest ih =>
    simp only [scrapeSupported, scrapeLoop, List.foldl] at ih ⊢
    exact ih (dictSet cache (hostOf u) (validFull u))

/-! ## resolve and the HostedMediaFile flags (standalone_resolveurl.py, C10) -/

/-- The keyword arguments of one HostedMediaFile constructor call; none models
an omitted keyword. -/
structure HMFCallArgs where
  url : String
  returnAll : Option Bool
  subs : Option Bool
deriving DecidableEq

/-- The constructor call made by resolve (standalone_resolveurl.py lines
125-130): with a truthy subs the call passes only subs, with a truthy
return_all (and falsy subs) only return_all, else neither. -/
def resolveHMFCall (webUrl : String) (returnAll subs : Bool) : HMFCallArgs :=
  if subs then ⟨webUrl, none, some subs⟩
  else if returnAll then ⟨webUrl, some returnAll, none⟩
  else ⟨webUrl, none, none⟩

/-- The flags a HostedMediaFile ends up holding. -/
structure HMFFlags where
  url : String
  returnAll : Bool
  subs : Bool
deriving DecidableEq

/-- Modelled from the spec: the HostedMediaFile constructor
(lib/resolveurl/hmf.py is not under src/). The ResolutionRequest flags
returnAll and wantSubtitles are optional, so an omitted constructor keyword
leaves the flag off. -/
def mkHostedMediaFile (a : HMFCallArgs) : HMFFlags :=
  ⟨a.url, a.returnAll.getD false, a.subs.getD false⟩

/-- C10: calling resolve with both subs and return_all set builds the media
file from the subs branch alone — the return_all keyword is not passed and the
constructed file carries return_all = false with subs = true, so the
all-streams behavior is dropped whenever subtitles are requested. -/
theorem resolve_subs_drops_returnAll (webUrl : String) :
    (resolveHMFCall webUrl true true).returnAll = none ∧
    (mkHostedMediaFile (resolveHMFCall webUrl true true)).returnAll = false ∧
    (mkHostedMediaFile (resolveHMFCall webUrl true true)).subs = true := by
  refine ⟨rfl, rfl, rfl⟩

end ResolveURL
